import Mathlib

/-!
Verification development for the CGPluginLib repository: a shallow embedding
of the client dispatcher (`src/clientLib/src/types.ts`, class `CgPluginLib`)
and the host signer/verifier (class `CgPluginLibHost`), together with
theorems settling the specification claims about rate limiting, retries,
correlation, signing and initialization.
-/

namespace CGPlugin

/-! ## JSON values

A minimal model of the JSON values the library serializes with
`JSON.stringify`: strings, integers and objects with ordered fields
(JavaScript object spread preserves insertion order, which the code relies
on when appending `requestId`).  Arrays and other JSON forms never occur in
the payloads the claims are about. -/

inductive Json where
  | str (s : String)
  | num (n : Int)
  | obj (fields : List (String × Json))
deriving Repr

/-- JSON string escaping for the characters that can occur in the payloads
the library builds (quote and backslash). -/
def jsonEscapeChar (c : Char) : String :=
  if c = '"' then "\\\""
  else if c = '\\' then "\\\\"
  else String.singleton c

def jsonEscape (s : String) : String :=
  String.join (s.data.map jsonEscapeChar)

def jsonQuote (s : String) : String :=
  "\"" ++ jsonEscape s ++ "\""

mutual

/-- `JSON.stringify` on the modelled values. -/
def jStringify : Json → String
  | Json.str s => jsonQuote s
  | Json.num n => toString n
  | Json.obj fs => "\x7b" ++ jFields fs ++ "\x7d"

def jFields : List (String × Json) → String
  | [] => ""
  | [(k, v)] => jsonQuote k ++ ":" ++ jStringify v
  | (k, v) :: rest => jsonQuote k ++ ":" ++ jStringify v ++ "," ++ jFields rest

end

/-- Field lookup on a JSON object (`payload.data`, `payload.data.error`, ...);
`none` models JavaScript `undefined`. -/
def getField (j : Json) (key : String) : Option Json :=
  match j with
  | Json.obj fs => go fs
  | _ => none
where go : List (String × Json) → Option Json
  | [] => none
  | (k, v) :: rest => if k = key then some v else go rest

/-- The JavaScript `key in object` test, used by the signed-response listener
as `if ('error' in payload.data)`. -/
def hasField (j : Json) (key : String) : Bool :=
  (getField j key).isSome

/-! ## Symbolic signature scheme

The library delegates signing to `crypto` (`RSASSA-PKCS1-v1_5` over
SHA-256), an external collaborator outside this repository.  It is modelled
as an ideal asymmetric signature scheme: a signature records the signing
key's identity and the exact message bytes; verification succeeds exactly
when the public key matches the signing key and the message is the one
signed.  Base64 transport encoding is modelled as an injective wrapper. -/

structure PrivKey where
  keyId : Nat
deriving DecidableEq, Repr

structure PubKey where
  keyId : Nat
deriving DecidableEq, Repr

structure Sig where
  keyId : Nat
  message : String
deriving DecidableEq, Repr

def cryptoSign (sk : PrivKey) (msg : String) : Sig :=
  ⟨sk.keyId, msg⟩

def cryptoVerify (pk : PubKey) (msg : String) (sig : Sig) : Bool :=
  sig.keyId = pk.keyId && sig.message = msg

/-- Base64 transport encoding of a raw signature (injective by construction). -/
structure Base64 where
  raw : Sig
deriving DecidableEq, Repr

def base64Encode (s : Sig) : Base64 := ⟨s⟩

def base64Decode (b : Base64) : Sig := b.raw

/-! ## Host signer/verifier (`CgPluginLibHost`, rollup-bundled host lib)

`signRequest` assigns `requestId-<timestamp>-<uuid>`, serializes the
pre-request fields with the fresh `requestId` appended (object spread plus a
new last field), signs the exact serialized string, and returns the pair.
`verifyResponse` decodes the base64 signature and verifies it over the exact
response string. -/

def signedRequestId (now : Int) (uuid : String) : String :=
  "requestId-" ++ toString now ++ "-" ++ uuid

def signRequest (sk : PrivKey) (now : Int) (uuid : String)
    (preRequest : List (String × Json)) : String × Base64 :=
  let requestId := signedRequestId now uuid
  let request := jStringify (Json.obj (preRequest ++ [("requestId", Json.str requestId)]))
  let signature := base64Encode (cryptoSign sk request)
  (request, signature)

def verifyResponse (pk : PubKey) (response : String) (signature : Base64) : Bool :=
  cryptoVerify pk response (base64Decode signature)

/-! ## Client send step (`CgPluginLib.__sendMessage`)

The send step first returns silently when no parent window reference is
available; otherwise it prunes the shared timestamp window to the trailing
60 seconds, pushes the current timestamp, stores the new window, and only
then checks the ceiling: at 100 or more entries (after the push) it throws,
otherwise it posts the payload to the parent. -/

def MAX_REQUESTS_PER_MINUTE : Nat := 100

structure SendState where
  parentWindow : Bool
  requestTimestampHistory : List Int
  iframeUid : String
deriving DecidableEq, Repr

inductive SendResult (E : Type) where
  | noParent
  | rateLimited (msg : String)
  | dispatched (payload : E)
deriving DecidableEq, Repr

/-- The pruning step of the rate window:
`history.filter((timestamp) => timestamp > now - 60000)`. -/
def pruneWindow (history : List Int) (now : Int) : List Int :=
  history.filter (fun ts => ts > now - 60000)

def sendMessage {E : Type} (st : SendState) (now : Int) (payload : E) :
    SendState × SendResult E :=
  if !st.parentWindow then
    (st, SendResult.noParent)
  else
    let history := pruneWindow st.requestTimestampHistory now
    let history := history ++ [now]
    let st := { st with requestTimestampHistory := history }
    if MAX_REQUESTS_PER_MINUTE ≤ history.length then
      (st, SendResult.rateLimited
        ("Max requests per minute reached for iframe: " ++ st.iframeUid))
    else
      (st, SendResult.dispatched payload)

/-! ## Retry loop (`__safeRequest` and `__request`)

Both request paths register a response listener keyed by the `requestId`
*before* the first send, then run `attemptSend`: increment the attempt
counter, call `__sendMessage`, and arm a timer; on expiry with attempts
below `maxAttempts` they re-run `attemptSend`, otherwise they reject with
`Request timed out` — the safe path additionally removes its listener
(`this.__off(requestId)`), the signed path does not.  The runs below model
an execution in which no correlated response ever arrives, so every armed
timer expires.  A `__sendMessage` throw on the first attempt propagates out
of the promise executor and rejects the caller; a throw inside a later
timer callback is uncaught and leaves the promise unsettled forever (no
further timer is armed). -/

inductive RunOutcome where
  | timeout
  | thrownFirstAttempt (msg : String)
  | hungUncaught (msg : String)
deriving DecidableEq, Repr

structure RunState (E : Type) where
  send : SendState
  dispatched : List E
  listeners : List String
deriving DecidableEq, Repr

/-- Register a listener key (`__on`); an existing binding for the key is
replaced, so the key set gains the key if absent. -/
def onReg (listeners : List String) (requestId : String) : List String :=
  if requestId ∈ listeners then listeners else listeners ++ [requestId]

/-- Remove a listener key (`__off`). -/
def offReg (listeners : List String) (requestId : String) : List String :=
  listeners.filter (fun id => id ≠ requestId)

/-- The `attemptSend` loop of `__safeRequest` when no response arrives. -/
def safeAttemptSend {E : Type} [DecidableEq E] (requestId : String) (envelope : E)
    (maxAttempts : Nat) (now : Int) (attempts : Nat) (rs : RunState E) :
    RunState E × RunOutcome :=
  let attemptsNext := attempts + 1
  match sendMessage rs.send now envelope with
  | (st, SendResult.rateLimited msg) =>
      if attempts = 0 then ({ rs with send := st }, RunOutcome.thrownFirstAttempt msg)
      else ({ rs with send := st }, RunOutcome.hungUncaught msg)
  | (st, r) =>
      let rs := { rs with send := st
                          dispatched := if r = SendResult.dispatched envelope
                            then rs.dispatched ++ [envelope] else rs.dispatched }
      if _h : attemptsNext < maxAttempts then
        safeAttemptSend requestId envelope maxAttempts now attemptsNext rs
      else
        ({ rs with listeners := offReg rs.listeners requestId }, RunOutcome.timeout)
termination_by maxAttempts - attempts
decreasing_by omega

/-- The `attemptSend` loop of `__request` when no response arrives: identical
except that the final timeout rejection does not remove the listener. -/
def requestAttemptSend {E : Type} [DecidableEq E] (requestId : String) (envelope : E)
    (maxAttempts : Nat) (now : Int) (attempts : Nat) (rs : RunState E) :
    RunState E × RunOutcome :=
  let attemptsNext := attempts + 1
  match sendMessage rs.send now envelope with
  | (st, SendResult.rateLimited msg) =>
      if attempts = 0 then ({ rs with send := st }, RunOutcome.thrownFirstAttempt msg)
      else ({ rs with send := st }, RunOutcome.hungUncaught msg)
  | (st, r) =>
      let rs := { rs with send := st
                          dispatched := if r = SendResult.dispatched envelope
                            then rs.dispatched ++ [envelope] else rs.dispatched }
      if _h : attemptsNext < maxAttempts then
        requestAttemptSend requestId envelope maxAttempts now attemptsNext rs
      else
        (rs, RunOutcome.timeout)
termination_by maxAttempts - attempts
decreasing_by omega

/-- Client-side requestId of a safe request. -/
def safeRequestId (now : Int) (payloadType : String) : String :=
  "safeRequest-" ++ toString now ++ "-" ++ payloadType

/-- Operation type of a safe-request payload (`payload.type`). -/
def payloadTypeOf (payload : Json) : String :=
  match getField payload "type" with
  | some (Json.str s) => s
  | _ => ""

/-- Full `__safeRequest` run with no correlated response: generate the
client-side requestId, register the listener, build the envelope
(`JSON.stringify` of the SafeRequestInner), and run the attempt loop. -/
def safeRequestNoResponse (st : SendState) (now : Int) (payload : Json)
    (listeners : List String) (maxAttempts : Nat) : RunState String × RunOutcome :=
  let requestId := safeRequestId now (payloadTypeOf payload)
  let envelope := jStringify (Json.obj
    [("type", Json.str "safeRequest"), ("data", payload),
     ("iframeUid", Json.str st.iframeUid), ("requestId", Json.str requestId)])
  safeAttemptSend requestId envelope maxAttempts now 0
    ⟨st, [], onReg listeners requestId⟩

/-- Full `__request` run with no correlated response: the signing endpoint
(the host's `signRequest`) returns the envelope `{request, signature}`; the
client extracts `requestId` by parsing `request` (which recovers the field
appended by the host), registers the listener, and runs the attempt loop.
The dispatched envelope is the `(request, signature)` pair. -/
def requestNoResponse (st : SendState) (now : Int) (sk : PrivKey) (signNow : Int)
    (uuid : String) (preRequest : List (String × Json)) (listeners : List String)
    (maxAttempts : Nat) : RunState (String × Base64) × RunOutcome :=
  let pluginRequest := signRequest sk signNow uuid preRequest
  let requestId := signedRequestId signNow uuid
  requestAttemptSend requestId pluginRequest maxAttempts now 0
    ⟨st, [], onReg listeners requestId⟩

/-! ## Inbound message handling (`__handleMessage`) and the correlator

The listener map holds one of two closure shapes: the `__safeRequest`
response listener resolves unconditionally, the `__request` response
listener first checks `'error' in payload.data` and rejects with that
message.  Both clear the retry timer and remove their own registration
(`__off`).  The handler drops messages from a non-matching origin, verifies
a present signature over the exact response string (throwing
`Invalid signature` on failure), and only then looks up `listeners[type]`.
The model returns the state after the call together with the message of an
uncaught throw, if any; a promise settles at most once, so a second
`resolve`/`reject` for an already settled id would be ignored. -/

inductive ListenerKind where
  | safeKind
  | signedKind
deriving DecidableEq, Repr

inductive ReqOutcome where
  | resolved (rawResponse : String)
  | rejectedError (msg : String)
  | rejectedTimeout
deriving DecidableEq, Repr

structure ClientMsgState where
  targetOrigin : String
  publicKey : PubKey
  listeners : List (String × ListenerKind)
  outcomes : List (String × ReqOutcome)
deriving DecidableEq, Repr

/-- An inbound `message` event: its origin, the envelope
`{ type, payload: { response, signature? } }`.  The wire `response` string
is the serialization of `responseJson`; `JSON.parse` recovers
`responseJson` from it. -/
structure MessageEvent where
  origin : String
  type : String
  responseJson : Json
  signature : Option Base64

def lookupKey {A : Type} : List (String × A) → String → Option A
  | [], _ => none
  | (k, v) :: rest, key => if k = key then some v else lookupKey rest key

def removeKey {A : Type} (l : List (String × A)) (key : String) : List (String × A) :=
  l.filter (fun kv => kv.1 ≠ key)

/-- Settle a promise: the first settlement wins, later ones are ignored. -/
def settle (outcomes : List (String × ReqOutcome)) (id : String) (o : ReqOutcome) :
    List (String × ReqOutcome) :=
  if (lookupKey outcomes id).isSome then outcomes else outcomes ++ [(id, o)]

/-- Message of the rejection `new Error(payload.data.error)`. -/
def errMsgOf (v : Json) : String :=
  match v with
  | Json.str s => s
  | v => jStringify v

/-- The body of the registered response listener, invoked as
`listeners[type](\x7bdata, __rawResponse\x7d)`. -/
def invokeListener (st : ClientMsgState) (id : String) (kind : ListenerKind)
    (responseJson : Json) (response : String) : ClientMsgState × Option String :=
  match kind with
  | ListenerKind.safeKind =>
      ({ st with outcomes := settle st.outcomes id (ReqOutcome.resolved response)
                 listeners := removeKey st.listeners id }, none)
  | ListenerKind.signedKind =>
      match getField responseJson "data" with
      | none =>
          -- payload.data is undefined: `'error' in undefined` throws a TypeError
          (st, some "TypeError")
      | some d =>
          if hasField d "error" then
            ({ st with outcomes := settle st.outcomes id
                         (ReqOutcome.rejectedError (errMsgOf ((getField d "error").getD (Json.str ""))))
                       listeners := removeKey st.listeners id }, none)
          else
            ({ st with outcomes := settle st.outcomes id (ReqOutcome.resolved response)
                       listeners := removeKey st.listeners id }, none)

/-- `__handleMessage`: returns the state after the handler ran, and
`some msg` when the handler threw `msg` uncaught. -/
def handleMessage (st : ClientMsgState) (ev : MessageEvent) :
    ClientMsgState × Option String :=
  if st.targetOrigin ≠ "*" && ev.origin ≠ st.targetOrigin then
    (st, none)
  else
    let response := jStringify ev.responseJson
    let sigOk := match ev.signature with
      | some sig => cryptoVerify st.publicKey response (base64Decode sig)
      | none => true
    if !sigOk then
      (st, some "Invalid signature")
    else
      if ev.type ≠ "" then
        match lookupKey st.listeners ev.type with
        | some kind => invokeListener st ev.type kind ev.responseJson response
        | none => (st, none)
      else
        (st, none)

/-! ## Initialization, teardown and context data

`CgPluginLib.initialize` returns the existing instance when one exists and
the `(iframeUid, signUrl, publicKey)` triple matches the stored statics;
otherwise it calls `instance?.__destroy()` and installs a fresh instance,
registering `instance.__handleMessage.bind(instance)` as the window message
listener.  `__destroy` calls
`window.removeEventListener('message', this.__handleMessage.bind(this))`;
every `.bind` call produces a fresh function object, modelled by a counter
of function identities, so the identity passed to `removeEventListener` is
never the one that was registered.  `getInstance` throws when no instance
exists; `getContextData` returns the static context data unconditionally
(`none` models the `undefined` before `__initContextData` has run). -/

structure InitState where
  instanceId : Option Nat
  iframeUid : String
  signUrl : String
  publicKeyStr : String
  windowListeners : List Nat
  nextFnId : Nat
  nextInstId : Nat
deriving DecidableEq, Repr

/-- A window with no plugin instance and no registered listeners. -/
def initState0 : InitState :=
  ⟨none, "", "", "", [], 0, 0⟩

def addEventListenerM (st : InitState) (fnId : Nat) : InitState :=
  { st with windowListeners := st.windowListeners ++ [fnId] }

def removeEventListenerM (st : InitState) (fnId : Nat) : InitState :=
  { st with windowListeners := st.windowListeners.filter (fun f => f ≠ fnId) }

/-- `__destroy`: removeEventListener applied to a freshly bound handler. -/
def destroy (st : InitState) : InitState :=
  let fnId := st.nextFnId
  let st := { st with nextFnId := st.nextFnId + 1 }
  removeEventListenerM st fnId

/-- Tail of `initialize` past the idempotency check: store the statics,
register a freshly bound message handler, create the instance. -/
def initFresh (st : InitState) (uid su pk : String) : InitState × Nat :=
  let fnId := st.nextFnId
  let instId := st.nextInstId
  ({ st with iframeUid := uid
             signUrl := su
             publicKeyStr := pk
             windowListeners := st.windowListeners ++ [fnId]
             nextFnId := fnId + 1
             instanceId := some instId
             nextInstId := instId + 1 }, instId)

/-- `CgPluginLib.initialize` (returns the new state and the instance the
caller receives). -/
def initClient (st : InitState) (uid su pk : String) : InitState × Nat :=
  match st.instanceId with
  | some i =>
      if st.iframeUid = uid ∧ st.signUrl = su ∧ st.publicKeyStr = pk then
        (st, i)
      else
        initFresh (destroy st) uid su pk
  | none => initFresh st uid su pk

/-- `CgPluginLib.getInstance`. -/
def getInstance (st : InitState) : Except String Nat :=
  match st.instanceId with
  | none => Except.error "CgPluginLib is not initialized. Call initialize() first."
  | some i => Except.ok i

structure PluginContextData where
  pluginId : String
  userId : String
  assignableRoleIds : List String
deriving DecidableEq, Repr

structure CtxState where
  contextData : Option PluginContextData
deriving DecidableEq, Repr

/-- `CgPluginLib.getContextData`: returns the static context data with no
initialization check — embedded into `Except` to show it never raises. -/
def getContextData (st : CtxState) : Except String (Option PluginContextData) :=
  Except.ok st.contextData

/-! ## Helper lemmas -/

theorem lookupKey_removeKey_self {A : Type} (l : List (String × A)) (key : String) :
    lookupKey (removeKey l key) key = none := by
  induction l with
  | nil => rfl
  | cons kv rest ih =>
      by_cases hk : kv.1 = key
      · have hdrop : removeKey (kv :: rest) key = removeKey rest key := by
          simp [removeKey, List.filter_cons, hk]
        rw [hdrop, ih]
      · have hkeep : removeKey (kv :: rest) key = kv :: removeKey rest key := by
          simp [removeKey, List.filter_cons, hk]
        rw [hkeep]
        simp [lookupKey, hk, ih]

theorem lookupKey_removeKey_ne {A : Type} (l : List (String × A)) (key id : String)
    (h : id ≠ key) : lookupKey (removeKey l key) id = lookupKey l id := by
  have hki : ¬ key = id := fun e => h e.symm
  induction l with
  | nil => rfl
  | cons kv rest ih =>
      by_cases hk : kv.1 = key
      · have hdrop : removeKey (kv :: rest) key = removeKey rest key := by
          simp [removeKey, List.filter_cons, hk]
        rw [hdrop, ih]
        simp [lookupKey, hk, hki]
      · have hkeep : removeKey (kv :: rest) key = kv :: removeKey rest key := by
          simp [removeKey, List.filter_cons, hk]
        rw [hkeep]
        simp [lookupKey, ih]

theorem lookupKey_append_singleton_ne {A : Type} (l : List (String × A)) (key id : String)
    (v : A) (h : id ≠ key) :
    lookupKey (l ++ [(key, v)]) id = lookupKey l id := by
  have hki : ¬ key = id := fun e => h e.symm
  induction l with
  | nil => simp [lookupKey, hki]
  | cons kv rest ih =>
      by_cases hi : kv.1 = id
      · simp [lookupKey, hi]
      · simp [lookupKey, hi, ih]

theorem lookupKey_settle_ne (os : List (String × ReqOutcome)) (key id : String)
    (o : ReqOutcome) (h : id ≠ key) :
    lookupKey (settle os key o) id = lookupKey os id := by
  unfold settle
  by_cases hs : (lookupKey os key).isSome
  · simp [hs]
  · simp [hs, lookupKey_append_singleton_ne os key id o h]

/-- Reduction of `__handleMessage` when the origin is accepted and any
present signature verifies: it becomes a pure correlator dispatch. -/
theorem handleMessage_dispatch (st : ClientMsgState) (ev : MessageEvent)
    (horig : st.targetOrigin = "*" ∨ ev.origin = st.targetOrigin)
    (hsig : ∀ sig, ev.signature = some sig →
      cryptoVerify st.publicKey (jStringify ev.responseJson) (base64Decode sig) = true)
    (htype : ev.type ≠ "") :
    handleMessage st ev =
      match lookupKey st.listeners ev.type with
      | some kind => invokeListener st ev.type kind ev.responseJson (jStringify ev.responseJson)
      | none => (st, none) := by
  unfold handleMessage
  have hcond : (st.targetOrigin ≠ "*" && ev.origin ≠ st.targetOrigin) = false := by
    rcases horig with h | h <;> simp [h]
  rw [hcond]
  simp only [Bool.false_eq_true, if_false]
  have hok : (match ev.signature with
      | some sig => cryptoVerify st.publicKey (jStringify ev.responseJson) (base64Decode sig)
      | none => true) = true := by
    cases hsg : ev.signature with
    | none => rfl
    | some sig => exact hsig sig hsg
  rw [hok]
  simp [htype]

/-! ## Claim C1: rate limiting -/

/-- C1, counterexample.  The claim says a denied attempt appends no
timestamp, and that with fewer than 100 window entries the message is
dispatched.  With 100 in-window timestamps the code denies but still
appends (the window grows to 101), and with only 99 in-window timestamps
the code already denies instead of dispatching. -/
theorem rateLimiter_claim_counterexample :
    (sendMessage ⟨true, List.replicate 100 0, "u"⟩ 0 "p").1.requestTimestampHistory.length = 101
    ∧ (sendMessage ⟨true, List.replicate 99 0, "u"⟩ 0 "p").2
        = SendResult.rateLimited "Max requests per minute reached for iframe: u" := by
  constructor
  · decide
  · decide

/-- C1 (amended): on every send attempt with a parent window available, the
code first appends the current timestamp to the pruned window; if the
appended window has 100 or more entries (99 or more remained after
pruning), the attempt throws the rate-limit error — the timestamp stays
appended and no message is dispatched — and otherwise the message is
dispatched.  When the first attempt of a safe request is denied this way,
the caller is rejected with the rate-limit error, but the pending listener
(registered before the send) stays registered. -/
theorem rateLimiter_append_then_check {E : Type} [DecidableEq E] (st : SendState)
    (now : Int) (payload : E) (hp : st.parentWindow = true) :
    (99 ≤ (pruneWindow st.requestTimestampHistory now).length →
      sendMessage st now payload =
        ({ st with requestTimestampHistory := pruneWindow st.requestTimestampHistory now ++ [now] },
         SendResult.rateLimited ("Max requests per minute reached for iframe: " ++ st.iframeUid)))
    ∧ ((pruneWindow st.requestTimestampHistory now).length < 99 →
      sendMessage st now payload =
        ({ st with requestTimestampHistory := pruneWindow st.requestTimestampHistory now ++ [now] },
         SendResult.dispatched payload))
    ∧ (99 ≤ (pruneWindow st.requestTimestampHistory now).length →
       ∀ payloadJ : Json,
        safeRequestNoResponse st now payloadJ [] 3 =
          (⟨{ st with requestTimestampHistory := pruneWindow st.requestTimestampHistory now ++ [now] },
            [], [safeRequestId now (payloadTypeOf payloadJ)]⟩,
           RunOutcome.thrownFirstAttempt
             ("Max requests per minute reached for iframe: " ++ st.iframeUid))) := by
  refine ⟨?_, ?_, ?_⟩
  · intro h
    have hc : (100 : Nat) ≤ (pruneWindow st.requestTimestampHistory now).length + 1 := by
      omega
    simp [sendMessage, hp, MAX_REQUESTS_PER_MINUTE, hc]
  · intro h
    have hc : ¬ (100 : Nat) ≤ (pruneWindow st.requestTimestampHistory now).length + 1 := by
      omega
    simp [sendMessage, hp, MAX_REQUESTS_PER_MINUTE, hc]
  · intro h payloadJ
    have hc : (100 : Nat) ≤ (pruneWindow st.requestTimestampHistory now).length + 1 := by
      omega
    simp [safeRequestNoResponse, safeAttemptSend, sendMessage, hp, MAX_REQUESTS_PER_MINUTE,
      hc, onReg]

/-- C1, witness for the amended theorem at a window holding 99 recent
timestamps. -/
theorem rateLimiter_append_then_check_witness :
    sendMessage ⟨true, List.replicate 99 0, "u"⟩ 0 "p" =
      ({ parentWindow := true,
         requestTimestampHistory := pruneWindow (List.replicate 99 0) 0 ++ [0],
         iframeUid := "u" },
       SendResult.rateLimited ("Max requests per minute reached for iframe: " ++ "u")) :=
  (rateLimiter_append_then_check ⟨true, List.replicate 99 0, "u"⟩ 0 "p" rfl).1 (by decide)

/-! ## Claim C2: sign/verify round trip -/

/-- C2: `signRequest` returns the JSON serialization of the pre-request
fields with the freshly assigned `requestId` appended, together with the
base64-encoded signature over that exact string; verifying the returned
pair under the matching public key yields true and under any non-matching
public key yields false (stated over the ideal-signature model of the
external RSA primitives). -/
theorem signRequest_roundtrip (sk : PrivKey) (pk pkOther : PubKey) (now : Int)
    (uuid : String) (pre : List (String × Json))
    (hmatch : pk.keyId = sk.keyId) (hother : pkOther.keyId ≠ sk.keyId) :
    (signRequest sk now uuid pre).1 =
      jStringify (Json.obj (pre ++ [("requestId", Json.str (signedRequestId now uuid))]))
    ∧ (signRequest sk now uuid pre).2 =
        base64Encode (cryptoSign sk (signRequest sk now uuid pre).1)
    ∧ verifyResponse pk (signRequest sk now uuid pre).1 (signRequest sk now uuid pre).2 = true
    ∧ verifyResponse pkOther (signRequest sk now uuid pre).1 (signRequest sk now uuid pre).2
        = false := by
  refine ⟨rfl, rfl, ?_, ?_⟩
  · simp [verifyResponse, signRequest, cryptoVerify, cryptoSign, base64Encode, base64Decode,
      hmatch]
  · simp [verifyResponse, signRequest, cryptoVerify, cryptoSign, base64Encode, base64Decode,
      Ne.symm hother]

/-- C2, witness with key pair 1 and mismatching key 2. -/
theorem signRequest_roundtrip_witness :
    verifyResponse ⟨1⟩ (signRequest ⟨1⟩ 0 "uuid" [("type", Json.str "request")]).1
        (signRequest ⟨1⟩ 0 "uuid" [("type", Json.str "request")]).2 = true
    ∧ verifyResponse ⟨2⟩ (signRequest ⟨1⟩ 0 "uuid" [("type", Json.str "request")]).1
        (signRequest ⟨1⟩ 0 "uuid" [("type", Json.str "request")]).2 = false :=
  ⟨(signRequest_roundtrip ⟨1⟩ ⟨1⟩ ⟨2⟩ 0 "uuid" [("type", Json.str "request")]
      rfl (by decide)).2.2.1,
   (signRequest_roundtrip ⟨1⟩ ⟨1⟩ ⟨2⟩ 0 "uuid" [("type", Json.str "request")]
      rfl (by decide)).2.2.2⟩

/-! ## Claim C9: access before initialization -/

/-- C9, counterexample.  The claim says `getContextData` called before
successful initialization raises a usage error; the code returns the
(undefined) static context data silently. -/
theorem getContextData_no_error_counterexample :
    getContextData ⟨none⟩ = Except.ok none := rfl

/-- C9 (amended): `getInstance` invoked before a successful initialization
fails fast with the uninitialized usage error, but `getContextData`
performs no initialization check: it always returns the stored context
data — before initialization the undefined identity — without raising. -/
theorem uninitialized_access :
    (∀ st : InitState, st.instanceId = none →
      getInstance st = Except.error "CgPluginLib is not initialized. Call initialize() first.")
    ∧ (∀ c : CtxState, getContextData c = Except.ok c.contextData) := by
  constructor
  · intro st h
    simp [getInstance, h]
  · intro c
    rfl

/-- C9, witness at the fresh window state. -/
theorem uninitialized_access_witness :
    getInstance initState0
      = Except.error "CgPluginLib is not initialized. Call initialize() first." :=
  uninitialized_access.1 initState0 rfl

/-! ## Claim C10: send with no parent window -/

/-- C10: a send attempt with no parent-window reference returns silently:
no message is dispatched, no error is raised, and no timestamp is appended
to the rate window; a request whose sends all fail this way terminates only
through the retry/timeout path — after three attempts the caller is
rejected with the timeout error (and for the safe path the registration is
removed). -/
theorem sendMessage_noParent_silent {E : Type} [DecidableEq E] (st : SendState)
    (now signNow : Int) (payload : E) (payloadJ : Json) (sk : PrivKey) (uuid : String)
    (pre : List (String × Json)) (hp : st.parentWindow = false) :
    sendMessage st now payload = (st, SendResult.noParent)
    ∧ safeRequestNoResponse st now payloadJ [] 3
        = (⟨st, [], []⟩, RunOutcome.timeout)
    ∧ requestNoResponse st now sk signNow uuid pre [] 3
        = (⟨st, [], [signedRequestId signNow uuid]⟩, RunOutcome.timeout) := by
  refine ⟨?_, ?_, ?_⟩
  · simp [sendMessage, hp]
  · simp [safeRequestNoResponse, safeAttemptSend, sendMessage, hp, onReg, offReg]
  · simp [requestNoResponse, requestAttemptSend, sendMessage, hp, onReg]

/-- C10, witness at a concrete parentless state. -/
theorem sendMessage_noParent_silent_witness :
    sendMessage ⟨false, [], "u"⟩ 0 "p" = (⟨false, [], "u"⟩, SendResult.noParent) :=
  (sendMessage_noParent_silent ⟨false, [], "u"⟩ 0 0 "p" (Json.str "x") ⟨1⟩ "uuid" [] rfl).1

/-! ## Claim C4: retry exhaustion -/

/-- C4, counterexample.  The claim says that after the final timeout of a
signed request the pending registration is removed; in the code only
`__safeRequest` removes its listener on the final timeout, while
`__request` rejects with the timeout error and leaves the registration in
place. -/
theorem retry_claim_counterexample :
    (requestNoResponse ⟨true, [], "u"⟩ 0 ⟨1⟩ 0 "v" [("type", Json.str "request")] [] 3).1.listeners
        = [signedRequestId 0 "v"]
    ∧ (requestNoResponse ⟨true, [], "u"⟩ 0 ⟨1⟩ 0 "v" [("type", Json.str "request")] [] 3).2
        = RunOutcome.timeout := by
  simp [requestNoResponse, requestAttemptSend, sendMessage, signRequest, onReg,
    MAX_REQUESTS_PER_MINUTE, pruneWindow]

/-- C4 (amended): with `maxAttempts = 3` and no correlated inbound
response, both request paths dispatch the same envelope (same `requestId`)
exactly 3 times and then reject the caller with the timeout error, without
its callback ever being invoked; the safe path removes the pending
registration when it rejects, but the signed path leaves its registration
in place. -/
theorem retry_exhaustion (uid uuid : String) (payload : Json)
    (pre : List (String × Json)) (sk : PrivKey) :
    (safeRequestNoResponse ⟨true, [], uid⟩ 0 payload [] 3).1.dispatched
        = List.replicate 3 (jStringify (Json.obj
            [("type", Json.str "safeRequest"), ("data", payload),
             ("iframeUid", Json.str uid),
             ("requestId", Json.str (safeRequestId 0 (payloadTypeOf payload)))]))
    ∧ (safeRequestNoResponse ⟨true, [], uid⟩ 0 payload [] 3).2 = RunOutcome.timeout
    ∧ (safeRequestNoResponse ⟨true, [], uid⟩ 0 payload [] 3).1.listeners = []
    ∧ (requestNoResponse ⟨true, [], uid⟩ 0 sk 0 uuid pre [] 3).1.dispatched
        = List.replicate 3 (signRequest sk 0 uuid pre)
    ∧ (requestNoResponse ⟨true, [], uid⟩ 0 sk 0 uuid pre [] 3).2 = RunOutcome.timeout
    ∧ (requestNoResponse ⟨true, [], uid⟩ 0 sk 0 uuid pre [] 3).1.listeners
        = [signedRequestId 0 uuid] := by
  refine ⟨?_, ?_, ?_, ?_, ?_, ?_⟩ <;>
    simp [safeRequestNoResponse, safeAttemptSend, requestNoResponse, requestAttemptSend,
      sendMessage, signRequest, onReg, offReg, MAX_REQUESTS_PER_MINUTE, pruneWindow,
      List.replicate]

/-! ## Claim C3: invalid inbound signature -/

/-- C3, counterexample.  The claim says the pending operation for the
requestId rejects with a SignatureInvalid error.  On a message whose
signature fails verification the handler throws `Invalid signature`
uncaught: the listener registration and the (empty) outcome set are
unchanged, so the pending operation is not rejected — it stays pending. -/
theorem signature_claim_counterexample :
    handleMessage ⟨"*", ⟨1⟩, [("req-1", ListenerKind.signedKind)], []⟩
        ⟨"origin", "req-1", Json.obj [("data", Json.obj [("id", Json.str "u1")])],
         some ⟨⟨2, "x"⟩⟩⟩
      = (⟨"*", ⟨1⟩, [("req-1", ListenerKind.signedKind)], []⟩, some "Invalid signature") := by
  rfl

/-- C3 (amended): for every inbound message whose signature fails
verification against the stored public key (and whose origin is accepted),
the handler throws an `Invalid signature` error and stops: the payload is
never delivered to the registered callback, no registration is removed and
no pending operation is settled — the caller's operation is not rejected
with that error and can only terminate through the retry/timeout path. -/
theorem signatureInvalid_handler_throws (st : ClientMsgState) (ev : MessageEvent)
    (sig : Base64)
    (horig : st.targetOrigin = "*" ∨ ev.origin = st.targetOrigin)
    (hsig : ev.signature = some sig)
    (hbad : cryptoVerify st.publicKey (jStringify ev.responseJson) (base64Decode sig)
      = false) :
    handleMessage st ev = (st, some "Invalid signature") := by
  unfold handleMessage
  have hcond : (st.targetOrigin ≠ "*" && ev.origin ≠ st.targetOrigin) = false := by
    rcases horig with h | h <;> simp [h]
  rw [hcond]
  simp [hsig, hbad]

/-- C3, witness at a concrete mismatching key. -/
theorem signatureInvalid_handler_throws_witness :
    handleMessage ⟨"*", ⟨1⟩, [("req-2", ListenerKind.signedKind)], []⟩
        ⟨"o", "req-2", Json.obj [("data", Json.obj [])], some ⟨⟨2, "y"⟩⟩⟩
      = (⟨"*", ⟨1⟩, [("req-2", ListenerKind.signedKind)], []⟩, some "Invalid signature") :=
  signatureInvalid_handler_throws _ _ ⟨⟨2, "y"⟩⟩ (Or.inl rfl) rfl rfl

/-! ## Claim C5: at-most-once correlation -/

/-- After a delivery removed the registration for `ev.type`, redelivering
the same message is a no-op and other registrations and outcomes are
untouched. -/
theorem afterDelivery_props (st st1 : ClientMsgState) (ev : MessageEvent) (o : ReqOutcome)
    (horig : st.targetOrigin = "*" ∨ ev.origin = st.targetOrigin)
    (hsig : ∀ sig, ev.signature = some sig →
      cryptoVerify st.publicKey (jStringify ev.responseJson) (base64Decode sig) = true)
    (htype : ev.type ≠ "")
    (h1 : st1.targetOrigin = st.targetOrigin) (h2 : st1.publicKey = st.publicKey)
    (h3 : st1.listeners = removeKey st.listeners ev.type)
    (h4 : st1.outcomes = settle st.outcomes ev.type o) :
    lookupKey st1.listeners ev.type = none
    ∧ handleMessage st1 ev = (st1, none)
    ∧ ∀ id, id ≠ ev.type →
        lookupKey st1.listeners id = lookupKey st.listeners id
        ∧ lookupKey st1.outcomes id = lookupKey st.outcomes id := by
  have hl1 : lookupKey st1.listeners ev.type = none := by
    rw [h3]; exact lookupKey_removeKey_self _ _
  refine ⟨hl1, ?_, ?_⟩
  · have horig1 : st1.targetOrigin = "*" ∨ ev.origin = st1.targetOrigin := by
      rw [h1]; exact horig
    have hsig1 : ∀ sig, ev.signature = some sig →
        cryptoVerify st1.publicKey (jStringify ev.responseJson) (base64Decode sig) = true := by
      rw [h2]; exact hsig
    rw [handleMessage_dispatch st1 ev horig1 hsig1 htype, hl1]
  · intro id hid
    exact ⟨by rw [h3]; exact lookupKey_removeKey_ne _ _ _ hid,
           by rw [h4]; exact lookupKey_settle_ne _ _ _ _ hid⟩

/-- C5: for every registered requestId the associated callback is invoked
at most once.  A delivery for an unregistered id is a no-op that does not
throw; the first correlated delivery to a safe listener resolves it and
removes the registration; and after any delivery that returns without
throwing, the registration for that id is gone, redelivering the same
message is a no-op that does not throw, and listeners and outcomes of every
other id are unchanged. -/
theorem correlator_at_most_once (st : ClientMsgState) (ev : MessageEvent)
    (horig : st.targetOrigin = "*" ∨ ev.origin = st.targetOrigin)
    (hsig : ∀ sig, ev.signature = some sig →
      cryptoVerify st.publicKey (jStringify ev.responseJson) (base64Decode sig) = true)
    (htype : ev.type ≠ "") :
    (lookupKey st.listeners ev.type = none → handleMessage st ev = (st, none))
    ∧ (lookupKey st.listeners ev.type = some ListenerKind.safeKind →
        handleMessage st ev =
          ({ st with
              outcomes := settle st.outcomes ev.type
                (ReqOutcome.resolved (jStringify ev.responseJson))
              listeners := removeKey st.listeners ev.type }, none))
    ∧ ∀ st1, handleMessage st ev = (st1, none) →
        lookupKey st1.listeners ev.type = none
        ∧ handleMessage st1 ev = (st1, none)
        ∧ ∀ id, id ≠ ev.type →
            lookupKey st1.listeners id = lookupKey st.listeners id
            ∧ lookupKey st1.outcomes id = lookupKey st.outcomes id := by
  have hd := handleMessage_dispatch st ev horig hsig htype
  refine ⟨?_, ?_, ?_⟩
  · intro h
    rw [hd, h]
  · intro h
    rw [hd, h]
    rfl
  · intro st1 h
    rw [hd] at h
    cases hl : lookupKey st.listeners ev.type with
    | none =>
        rw [hl] at h
        have hst : st = st1 := congrArg Prod.fst h
        subst hst
        exact ⟨hl, by rw [hd, hl], fun id _ => ⟨rfl, rfl⟩⟩
    | some kind =>
        rw [hl] at h
        cases kind with
        | safeKind =>
            have hst1 : st1 = { st with
                outcomes := settle st.outcomes ev.type
                  (ReqOutcome.resolved (jStringify ev.responseJson))
                listeners := removeKey st.listeners ev.type } := by
              have := congrArg Prod.fst h
              simpa [invokeListener] using this.symm
            exact afterDelivery_props st st1 ev _ horig hsig htype
              (by rw [hst1]) (by rw [hst1]) (by rw [hst1]) (by rw [hst1])
        | signedKind =>
            simp only [invokeListener] at h
            split at h
            · exact absurd (congrArg Prod.snd h) (by simp)
            · split at h
              · have hst1 := (Prod.mk.inj h).1.symm
                exact afterDelivery_props st st1 ev _ horig hsig htype
                  (by rw [hst1]) (by rw [hst1]) (by rw [hst1]) (by rw [hst1])
              · have hst1 := (Prod.mk.inj h).1.symm
                exact afterDelivery_props st st1 ev _ horig hsig htype
                  (by rw [hst1]) (by rw [hst1]) (by rw [hst1]) (by rw [hst1])

/-- C5, witness: a safe listener, delivery resolves and removes it. -/
theorem correlator_at_most_once_witness :
    handleMessage ⟨"*", ⟨1⟩, [("req-5", ListenerKind.safeKind)], []⟩
        ⟨"o", "req-5", Json.obj [("data", Json.obj [("ok", Json.num 1)])], none⟩
      = ({ targetOrigin := "*", publicKey := ⟨1⟩
           listeners := removeKey [("req-5", ListenerKind.safeKind)] "req-5"
           outcomes := settle [] "req-5" (ReqOutcome.resolved (jStringify
             (Json.obj [("data", Json.obj [("ok", Json.num 1)])]))) }, none) :=
  (correlator_at_most_once ⟨"*", ⟨1⟩, [("req-5", ListenerKind.safeKind)], []⟩
      ⟨"o", "req-5", Json.obj [("data", Json.obj [("ok", Json.num 1)])], none⟩
      (Or.inl rfl) (fun _ h => nomatch h) (by decide)).2.1 rfl

/-! ## Claim C7: explicit error payloads -/

/-- C7, counterexample.  The claim says every operation (safe or signed)
whose resolved payload carries the explicit error shape rejects.  A safe
request's listener resolves unconditionally: delivering an error-shaped
payload to it records a resolution, not a rejection. -/
theorem safeListener_error_resolves_counterexample :
    handleMessage ⟨"*", ⟨1⟩, [("req-1", ListenerKind.safeKind)], []⟩
        ⟨"o", "req-1",
         Json.obj [("data", Json.obj [("error", Json.str "boom")]),
                   ("pluginId", Json.str "p"), ("requestId", Json.str "req-1")], none⟩
      = (⟨"*", ⟨1⟩, [],
          [("req-1", ReqOutcome.resolved (jStringify (Json.obj
             [("data", Json.obj [("error", Json.str "boom")]),
              ("pluginId", Json.str "p"), ("requestId", Json.str "req-1")])))]⟩, none) := by
  rfl

/-- C7 (amended): a signed operation whose correlated response payload
carries the explicit error shape rejects with that error message rather
than resolving; a safe operation resolves the payload unconditionally, even
when it carries the error shape. -/
theorem requestListener_error_rejects (st : ClientMsgState) (ev : MessageEvent)
    (d : Json) (msg : String)
    (horig : st.targetOrigin = "*" ∨ ev.origin = st.targetOrigin)
    (hsig : ∀ sig, ev.signature = some sig →
      cryptoVerify st.publicKey (jStringify ev.responseJson) (base64Decode sig) = true)
    (htype : ev.type ≠ "")
    (hl : lookupKey st.listeners ev.type = some ListenerKind.signedKind)
    (hdata : getField ev.responseJson "data" = some d)
    (herr : getField d "error" = some (Json.str msg)) :
    handleMessage st ev =
      ({ st with outcomes := settle st.outcomes ev.type (ReqOutcome.rejectedError msg)
                 listeners := removeKey st.listeners ev.type }, none) := by
  rw [handleMessage_dispatch st ev horig hsig htype, hl]
  simp [invokeListener, hdata, hasField, herr, errMsgOf]

/-- C7, witness: a signed listener receiving an error-shaped payload. -/
theorem requestListener_error_rejects_witness :
    handleMessage ⟨"*", ⟨1⟩, [("req-9", ListenerKind.signedKind)], []⟩
        ⟨"o", "req-9", Json.obj [("data", Json.obj [("error", Json.str "denied")])], none⟩
      = ({ targetOrigin := "*", publicKey := ⟨1⟩
           listeners := removeKey [("req-9", ListenerKind.signedKind)] "req-9"
           outcomes := settle [] "req-9" (ReqOutcome.rejectedError "denied") }, none) :=
  requestListener_error_rejects ⟨"*", ⟨1⟩, [("req-9", ListenerKind.signedKind)], []⟩
    ⟨"o", "req-9", Json.obj [("data", Json.obj [("error", Json.str "denied")])], none⟩
    (Json.obj [("error", Json.str "denied")]) "denied"
    (Or.inl rfl) (fun _ h => nomatch h) (by decide) rfl rfl rfl

/-! ## Claim C6: idempotent initialization and teardown -/

/-- C6, evaluation at the failing input.  Re-initializing with the
identical triple returns the same state and instance (idempotent half of
the claim, which holds).  Re-initializing with a different triple is
supposed to tear down the old inbound-message listener, but `__destroy`
passes `removeEventListener` a freshly created bound function (identity 1),
never the registered one (identity 0), so after the second initialization
the window still holds the old instance's listener: the listener list is
`[0, 2]`, with the stale handler 0 still attached and receiving
messages. -/
theorem initClient_bind_teardown_noop :
    initClient (initClient initState0 "a" "s" "k").1 "a" "s" "k"
        = initClient initState0 "a" "s" "k"
    ∧ (initClient (initClient initState0 "a" "s" "k").1 "b" "s" "k").1.windowListeners
        = [0, 2] := by
  constructor
  · decide
  · decide

/-! ## Claim C8: requestId uniqueness and form -/

/-- C8, counterexample.  The claim says requestIds of distinct outgoing
requests are always distinct.  Two distinct safe requests (different
navigation targets, hence different serialized envelopes) created in the
same millisecond with the same operation type receive the same
client-generated requestId. -/
theorem safeRequestId_collision_counterexample :
    safeRequestId 1000
        (payloadTypeOf (Json.obj [("type", Json.str "navigate"), ("to", Json.str "/a")]))
      = safeRequestId 1000
        (payloadTypeOf (Json.obj [("type", Json.str "navigate"), ("to", Json.str "/b")]))
    ∧ jStringify (Json.obj [("type", Json.str "navigate"), ("to", Json.str "/a")])
      ≠ jStringify (Json.obj [("type", Json.str "navigate"), ("to", Json.str "/b")]) := by
  constructor
  · rfl
  · decide

/-- C8 (amended): safe requestIds are generated client-side with the exact
form `safeRequest-<timestamp>-<operation type>`, signed requestIds are
generated host-side with the form `requestId-<timestamp>-<uuid>`, and a
safe requestId never collides with a signed one; but pairwise distinctness
over the dispatcher lifetime does not hold — two distinct safe requests
sharing a creation timestamp and operation type receive the same
requestId. -/
theorem requestId_forms :
    (∀ (now : Int) (typ : String),
      safeRequestId now typ = "safeRequest-" ++ toString now ++ "-" ++ typ)
    ∧ (∀ (sk : PrivKey) (now : Int) (uuid : String) (pre : List (String × Json)),
        (signRequest sk now uuid pre).1 = jStringify (Json.obj (pre ++
          [("requestId", Json.str ("requestId-" ++ toString now ++ "-" ++ uuid))])))
    ∧ (∀ (t1 : Int) (typ : String) (t2 : Int) (uuid : String),
        safeRequestId t1 typ ≠ signedRequestId t2 uuid)
    ∧ ∃ (p1 p2 : Int × Json),
        p1 ≠ p2
        ∧ safeRequestId p1.1 (payloadTypeOf p1.2) = safeRequestId p2.1 (payloadTypeOf p2.2) := by
  refine ⟨fun _ _ => rfl, fun _ _ _ _ => rfl, ?_, ?_⟩
  · intro t1 typ t2 uuid h
    rw [safeRequestId, signedRequestId] at h
    have h2 := congrArg String.data h
    simp [String.data_append] at h2
  · refine ⟨(1000, Json.obj [("type", Json.str "navigate"), ("to", Json.str "/a")]),
      (1000, Json.obj [("type", Json.str "navigate"), ("to", Json.str "/b")]), ?_, rfl⟩
    intro h
    exact absurd (congrArg (fun p => jStringify p.2) h) (by decide)

/-- C8, witness: the id forms and the safe/signed disjointness at concrete
inputs. -/
theorem requestId_forms_witness :
    safeRequestId 5 "navigate" = "safeRequest-" ++ toString (5 : Int) ++ "-" ++ "navigate"
    ∧ safeRequestId 5 "navigate" ≠ signedRequestId 5 "navigate" :=
  ⟨requestId_forms.1 5 "navigate", requestId_forms.2.2.1 5 "navigate" 5 "navigate"⟩

end CGPlugin
